import Mathlib

/-!
# Verification of the `dfqa` inconsistency-detection engine

A shallow embedding of `dfqa/consistency.py` (primarily `verifyConsistency`)
and the input guard of `dfqa/completedness.py` (`checkCompletedness`),
together with theorems settling the specification's claims about them.

Modelling conventions:

* A pandas cell is `Option PyVal`; `Option.none` stands for a missing value
  (`NaN` / Python `None`), which `Series.dropna` removes.
* Python floats are carried by `ℚ` (always in reduced form, as Mathlib's
  `Rat` guarantees); the values exercised by the specification (integers,
  halves) are exactly representable, so no floating-point rounding is lost.
* A raised Python exception is `Except.error`; `pandas.Series.apply`
  propagates the first exception raised by the mapped function, which is
  `mapM`-style sequencing in `Except`.
* Python `==` between cell values (used by set membership and
  `Series.unique`) equates `bool`, `int` and `float` values numerically and
  compares strings by content; this is `pyEq` below.
* Python set / `Series.unique` deduplication keeps the first occurrence of
  each equivalence class; this is `dedupBy` below.
-/

deriving instance DecidableEq for Except

namespace DFQA

/-- Runtime Python type tags, as produced by `type(x)` on the cell values
that can inhabit the modelled dtypes. -/
inductive PyType where
  | intT
  | floatT
  | boolT
  | strT
  | timestampT
deriving DecidableEq, Repr

/-- A non-missing Python cell value.  Floats are reduced rationals (see the
module docstring); `timestamp` covers `pandas.Timestamp` cells of
datetime columns, carried as an integer tick count. -/
inductive PyVal where
  | int (n : Int)
  | float (q : ℚ)
  | bool (b : Bool)
  | str (s : String)
  | timestamp (ns : Int)
deriving DecidableEq, Repr

/-- The pandas column dtypes exercised by the library: `object` columns
(string-like, subject to the textual heuristics), the numeric dtypes
`int64`, `float64` and `bool`, and `datetime64` as a representative
non-object non-numeric dtype. -/
inductive Dtype where
  | object
  | int64
  | float64
  | boolDt
  | datetime64
deriving DecidableEq, Repr

/-- The Python exception classes raised by the modelled code paths. -/
inductive PyError where
  | typeError
  | valueError
deriving DecidableEq, Repr

/-- One detected inconsistency, modelled structurally rather than as the
source's formatted message string (the source interpolates a Python set,
whose textual order is unspecified; the data carried is what the claims
speak about).  Constructors follow the source's emission sites in
`verifyConsistency`, in order. -/
inductive Finding where
  | inconsistentDates (forms : List String)
  | possibleBool (vals : List PyVal)
  | missingPlaceholders (vals : List PyVal)
  | encodingAnomaly
  | mixedNumericTypes (names : List String)
  | inconsistentPrecision
deriving DecidableEq, Repr

/-- A named pandas column: declared dtype plus cells (`none` = missing). -/
structure DFColumn where
  name : String
  dtype : Dtype
  cells : List (Option PyVal)
deriving DecidableEq, Repr

/-- A pandas DataFrame: an ordered sequence of named columns.  (Duplicate
column labels, which send the source down an unrelated error path, are
outside the modelled fragment.) -/
structure DataFrame where
  cols : List DFColumn
deriving DecidableEq, Repr

/-- `type(x)` on a cell value. -/
def typeOf : PyVal → PyType
  | .int _ => .intT
  | .float _ => .floatT
  | .bool _ => .boolT
  | .str _ => .strT
  | .timestamp _ => .timestampT

/-- `type(x).__name__`. -/
def typeName : PyType → String
  | .intT => "int"
  | .floatT => "float"
  | .boolT => "bool"
  | .strT => "str"
  | .timestampT => "Timestamp"

/-- The rational 𝑛/1, used to build integral float cells. -/
def qInt (n : Int) : ℚ := ⟨n, 1, one_ne_zero, Nat.coprime_one_right _⟩

/-- Python `==` on cell values: `bool`, `int` and `float` compare
numerically (`1 == 1.0 == True` in Python); strings compare by content;
values of unrelated kinds are unequal.  Since the `ℚ` carrier is reduced,
a float equals an integer exactly when its denominator is 1 and its
numerator matches. -/
def pyEq : PyVal → PyVal → Bool
  | .int m, .int n => m == n
  | .int m, .float q => q.den == 1 && q.num == m
  | .int m, .bool b => m == (if b then 1 else 0)
  | .float q, .int n => q.den == 1 && q.num == n
  | .float p, .float q => p == q
  | .float q, .bool b => q.den == 1 && q.num == (if b then 1 else 0)
  | .bool b, .int n => (if b then (1 : Int) else 0) == n
  | .bool b, .float q => q.den == 1 && q.num == (if b then 1 else 0)
  | .bool a, .bool b => a == b
  | .str s, .str t => s == t
  | .timestamp a, .timestamp b => a == b
  | _, _ => false

/-- Python `x in s` for a collection compared with `pyEq`. -/
def pyMem (v : PyVal) (l : List PyVal) : Bool :=
  l.any (pyEq v)

/-- Worker for `dedupBy`: drop any element equivalent (under `r`) to one
already seen, keeping first occurrences in order. -/
def dedupByGo {α : Type} (r : α → α → Bool) : List α → List α → List α
  | _, [] => []
  | seen, a :: l =>
    if seen.any (fun b => r b a) then dedupByGo r seen l
    else a :: dedupByGo r (a :: seen) l

/-- First-occurrence deduplication with respect to an equivalence test `r`;
models Python set construction and `pandas.Series.unique`. -/
def dedupBy {α : Type} (r : α → α → Bool) (l : List α) : List α :=
  dedupByGo r [] l

/-- `Series.dropna`: remove the missing cells. -/
def dropna (cells : List (Option PyVal)) : List PyVal :=
  cells.filterMap id

/-- The digit value of a character, if it is a decimal digit. -/
def digitVal (c : Char) : Option Nat :=
  if c.isDigit then some (c.toNat - 48) else none

/-- Accumulating decimal read; fails at the first non-digit. -/
def digitsToNatAux : List Char → Nat → Option Nat
  | [], acc => some acc
  | c :: cs, acc =>
    match digitVal c with
    | some d => digitsToNatAux cs (acc * 10 + d)
    | none => none

/-- Read a non-empty all-digit token as a number. -/
def digitsToNat (cs : List Char) : Option Nat :=
  if cs.isEmpty then none else digitsToNatAux cs 0

/-- Split a character list at every occurrence of `sep` (like
`str.split` on a single-character separator). -/
def splitOnChar (sep : Char) : List Char → List (List Char)
  | [] => [[]]
  | c :: rest =>
    let r := splitOnChar sep rest
    if c == sep then [] :: r
    else
      match r with
      | t :: ts => (c :: t) :: ts
      | [] => [[c]]

/-- Gregorian leap-year test. -/
def isLeapYear (y : Nat) : Bool :=
  y % 4 == 0 && (y % 100 != 0 || y % 400 == 0)

/-- Days in a month of the Gregorian calendar. -/
def daysInMonth (y m : Nat) : Nat :=
  if m == 2 then (if isLeapYear y then 29 else 28)
  else if m == 4 || m == 6 || m == 9 || m == 11 then 30
  else 31

/-- Calendar validity of a year/month/day triple. -/
def validYMD (y m d : Nat) : Bool :=
  1 ≤ m && m ≤ 12 && 1 ≤ d && d ≤ daysInMonth y m

/-- Zero-pad to two digits. -/
def pad2 (n : Nat) : String :=
  if n < 10 then "0" ++ toString n else toString n

/-- Zero-pad to four digits. -/
def pad4 (n : Nat) : String :=
  if n < 10 then "000" ++ toString n
  else if n < 100 then "00" ++ toString n
  else if n < 1000 then "0" ++ toString n
  else toString n

/-- `Timestamp.strftime` with format `%Y-%m-%d`. -/
def canonDate (y m d : Nat) : String :=
  pad4 y ++ "-" ++ pad2 m ++ "-" ++ pad2 d

/-- Interpret three delimiter-separated tokens as a calendar date the way
`pandas.to_datetime` does for the formats the specification exercises:
a four-digit leading token is year-month-day; a four-digit trailing token
is read month-first (`MM/DD/YYYY`), falling back to day-first when the
month-first reading is not a valid date. -/
def parseDateTokens (ts : List (List Char)) : Option (Nat × Nat × Nat) :=
  match ts with
  | [a, b, c] =>
    match digitsToNat a, digitsToNat b, digitsToNat c with
    | some x, some y, some z =>
      if a.length == 4 then
        if validYMD x y z then some (x, y, z) else none
      else if c.length == 4 then
        if validYMD z x y then some (z, x, y)
        else if validYMD z y x then some (z, y, x)
        else none
      else none
    | _, _, _ => none
  | _ => none

/-- Model of `pd.to_datetime(value, errors="raise")` followed by
`.strftime("%Y-%m-%d")`, restricted to the delimiter-separated numeric
date formats the specification exercises; every other input is a parse
failure (`none`), standing for the raised exception that the source
swallows per value. -/
def toDatetimeCanon : PyVal → Option String
  | .str s =>
    let tsDash := splitOnChar '-' s.data
    let ts := if tsDash.length == 3 then tsDash else splitOnChar '/' s.data
    (parseDateTokens ts).map fun p => canonDate p.1 p.2.1 p.2.2
  | _ => none

/-- Heuristic (a) of the object branch: collect the canonical form of every
cell that parses as a date (parse failures are skipped), and flag the
column when more than one distinct canonical form was seen. -/
def dateCheck (values : List PyVal) : List Finding :=
  if 1 < (dedupBy (· == ·) (values.filterMap toDatetimeCanon)).length then
    [.inconsistentDates (dedupBy (· == ·) (values.filterMap toDatetimeCanon))]
  else []

/-- The string tokens of the source's `boolean_aliases` literal. -/
def stringBooleanAliases : List PyVal :=
  [.str "TRUE", .str "FALSE", .str "True", .str "False",
   .str "T", .str "F", .str "t", .str "f",
   .str "YES", .str "NO", .str "Yes", .str "No",
   .str "Y", .str "N", .str "y", .str "n"]

/-- The numeric tokens `1, 0, 1.0, 0.0` of the source's `boolean_aliases`
literal.  (In Python the set literal collapses `1.0` into `1` and `0.0`
into `0`; membership tested through `pyEq` is unaffected.) -/
def numericBooleanAliases : List PyVal :=
  [.int 1, .int 0, .float (qInt 1), .float (qInt 0)]

/-- The source's `boolean_aliases` vocabulary. -/
def booleanAliases : List PyVal :=
  stringBooleanAliases ++ numericBooleanAliases

/-- Heuristic (b): flag the column, reporting its full distinct-value set,
when that set intersects the boolean vocabulary. -/
def boolCheck (values : List PyVal) : List Finding :=
  if (dedupBy pyEq values).any (fun v => pyMem v booleanAliases) then
    [.possibleBool (dedupBy pyEq values)]
  else []

/-- The source's `known_missing` vocabulary (case-sensitive strings). -/
def knownMissing : List PyVal :=
  [.str "NA", .str "N/A", .str "null", .str "none",
   .str "None", .str "-", .str "", .str "missing"]

/-- Heuristic (c): flag the column, reporting the intersecting subset, when
its distinct values meet the missing-placeholder vocabulary. -/
def missingCheck (values : List PyVal) : List Finding :=
  if 0 < ((dedupBy pyEq values).filter (fun v => pyMem v knownMissing)).length then
    [.missingPlaceholders ((dedupBy pyEq values).filter (fun v => pyMem v knownMissing))]
  else []

/-- Python `str(x)` on cell values.  Non-terminating decimal expansions of
the `ℚ` float carrier are rendered `num/den`; like every numeric `repr`
in Python the rendering is pure ASCII, which is the only property the
encoding heuristic inspects. -/
def pyStr : PyVal → String
  | .str s => s
  | .int n => toString n
  | .bool b => if b then "True" else "False"
  | .float q => if q.den == 1 then toString q.num ++ ".0"
                else toString q.num ++ "/" ++ toString q.den
  | .timestamp ns => toString ns

/-- Does the string contain a character outside 7-bit ASCII?  (The source's
regex `[^\x00-\x7F]`.) -/
def hasNonAscii (s : String) : Bool :=
  s.data.any fun c => 127 < c.toNat

/-- Heuristic (d): flag the column (no value list) when any non-missing
value, coerced to text, contains a non-ASCII character. -/
def encodingCheck (values : List PyVal) : List Finding :=
  if values.any (fun v => hasNonAscii (pyStr v)) then [.encodingAnomaly] else []

/-- The four textual heuristics of the `dtype == "object"` branch, in
source order: dates, booleans, missing placeholders, encoding. -/
def objectChecks (values : List PyVal) : List Finding :=
  dateCheck values ++ boolCheck values ++ missingCheck values ++ encodingCheck values

/-- Python's unbound `float.is_integer` applied to a cell value: defined
only on actual floats, raising `TypeError` on every other runtime type
(including `int` and `bool`). -/
def floatIsInteger : PyVal → Except PyError Bool
  | .float q => .ok (q.den == 1)
  | _ => .error .typeError

/-- `Series.apply(float.is_integer)`: the first raised exception aborts the
whole call. -/
def applyIsInteger : List PyVal → Except PyError (List Bool)
  | [] => .ok []
  | v :: vs =>
    match floatIsInteger v with
    | .error e => .error e
    | .ok b =>
      match applyIsInteger vs with
      | .error e => .error e
      | .ok bs => .ok (b :: bs)

/-- `pd.api.types.is_numeric_dtype` on the modelled dtypes (`bool` counts
as numeric in pandas; `object` and `datetime64` do not). -/
def isNumericDtype : Dtype → Bool
  | .int64 => true
  | .float64 => true
  | .boolDt => true
  | _ => false

/-- The numeric branch of `verifyConsistency`: report mixed runtime types
if more than one is present, otherwise test integrality of every value
with `float.is_integer` (whose `TypeError` on non-float values
propagates) and report mixed precision when both integral and
non-integral values occur. -/
def numericChecks (values : List PyVal) : Except PyError (List Finding) :=
  if 1 < (dedupBy (· == ·) (values.map typeOf)).length then
    .ok [.mixedNumericTypes ((dedupBy (· == ·) (values.map typeOf)).map typeName)]
  else
    match applyIsInteger values with
    | .error e => .error e
    | .ok bs =>
      if 1 < (dedupBy (· == ·) bs).length then .ok [.inconsistentPrecision]
      else .ok []

/-- The per-column body of `verifyConsistency`'s loop: the textual
heuristics when the dtype is `object`, then the numeric heuristics when
the dtype is numeric, accumulated in that order. -/
def checkColumn (c : DFColumn) : Except PyError (List Finding) :=
  if isNumericDtype c.dtype then
    match numericChecks (dropna c.cells) with
    | .error e => .error e
    | .ok numFindings =>
      .ok ((if c.dtype == .object then objectChecks (dropna c.cells) else []) ++ numFindings)
  else
    .ok (if c.dtype == .object then objectChecks (dropna c.cells) else [])

/-- The column loop: a raised exception aborts the whole call, a column
with no findings is not recorded, and recorded columns keep the
DataFrame's column order (Python dict insertion order). -/
def verifyCols : List DFColumn → Except PyError (List (String × List Finding))
  | [] => .ok []
  | c :: cs =>
    match checkColumn c with
    | .error e => .error e
    | .ok fs =>
      match verifyCols cs with
      | .error e => .error e
      | .ok rest => .ok (if fs.isEmpty then rest else (c.name, fs) :: rest)

/-- The number of columns `pd.DataFrame.from_dict(rows, orient="index")`
produces from the recorded finding lists: each list element becomes its
own DataFrame column, so the width is the longest list's length. -/
def maxFindingsWidth (rows : List (String × List Finding)) : Nat :=
  rows.foldr (fun r m => max r.2.length m) 0

/-- `verifyConsistency` from `dfqa/consistency.py`.  An exception raised in
the column loop propagates; an empty dict yields the empty report (not an
error).  A non-empty dict is compiled with
`pd.DataFrame.from_dict(..., orient="index").reset_index()`, which spreads
each finding list across `maxFindingsWidth` DataFrame columns plus the
index column; the subsequent assignment of the two-element header
`["Column", "Inconsistencies"]` succeeds only when that width is exactly 1
and raises `ValueError` otherwise.  So a report is returned only when
every recorded column carries exactly one finding; the returned rows keep
the dict's insertion order. -/
def verifyConsistency (df : DataFrame) : Except PyError (List (String × List Finding)) :=
  match verifyCols df.cols with
  | .error e => .error e
  | .ok rows =>
    if rows.isEmpty then .ok []
    else if maxFindingsWidth rows == 1 then .ok rows
    else .error .valueError

/-- The heuristic category of a finding, numbered in the evaluation order
of the source (dates 0, booleans 1, placeholders 2, encoding 3, mixed
types 4, precision 5). -/
def catIdx : Finding → Nat
  | .inconsistentDates _ => 0
  | .possibleBool _ => 1
  | .missingPlaceholders _ => 2
  | .encodingAnomaly => 3
  | .mixedNumericTypes _ => 4
  | .inconsistentPrecision => 5

/-- Whether a column contributes a row to the report (it checked cleanly
and produced at least one finding). -/
def colHasFinding (c : DFColumn) : Bool :=
  match checkColumn c with
  | .ok fs => !fs.isEmpty
  | .error _ => false

/-- `df.shape[0]` (rows are positionally aligned, so the first column's
length is the row count). -/
def DataFrame.nrows (df : DataFrame) : Nat :=
  match df.cols with
  | [] => 0
  | c :: _ => c.cells.length

/-- `df.empty`: true when either axis has length zero. -/
def DataFrame.emptyDF (df : DataFrame) : Bool :=
  df.cols.isEmpty || df.nrows == 0

/-- Python 3 `round` to an integer: nearest, ties to even, on the exact
rational carrier. -/
def roundHalfEven (q : ℚ) : Int :=
  let f := ⌊q⌋
  let r := q - (f : ℚ)
  if r < 1/2 then f
  else if 1/2 < r then f + 1
  else if f % 2 == 0 then f else f + 1

/-- Python `round(x, 2)` on the rational carrier. -/
def round2 (q : ℚ) : ℚ :=
  (roundHalfEven (q * 100) : ℚ) / 100

/-- `checkCompletedness` from `dfqa/completedness.py`: rejects an empty
DataFrame with `ValueError`, otherwise reports per column the missing
count and its rounded percentage of the row count.  (The `isinstance`
`TypeError` guard is discharged statically by the embedding's input
type.) -/
def checkCompletedness (df : DataFrame) : Except PyError (List (String × Nat × ℚ)) :=
  if df.emptyDF then .error .valueError
  else
    .ok (df.cols.map fun c =>
      let missing := (c.cells.filter Option.isNone).length
      (c.name, missing, round2 ((missing : ℚ) / (df.nrows : ℚ) * 100)))

/-- Cell/dtype compatibility as pandas maintains it: `object` columns hold
any value, `int64` and `bool` columns hold exactly their scalars (and
cannot hold missing values), `float64` and `datetime64` columns hold
their scalars or missing. -/
def cellOk (dt : Dtype) (cell : Option PyVal) : Bool :=
  match dt, cell with
  | .object, _ => true
  | .int64, some (.int _) => true
  | .float64, some (.float _) => true
  | .float64, none => true
  | .boolDt, some (.bool _) => true
  | .datetime64, some (.timestamp _) => true
  | .datetime64, none => true
  | _, _ => false

/-- A column representable by pandas: every cell fits the declared dtype. -/
def WFcol (c : DFColumn) : Bool :=
  c.cells.all (cellOk c.dtype)

/-- Observer: is this a boolean-representation finding? -/
def Finding.isPossibleBool : Finding → Bool
  | .possibleBool _ => true
  | _ => false

/-! ## Helper lemmas -/

theorem any_congr_of_mem {α : Type} {p q : α → Bool} :
    ∀ l : List α, (∀ a ∈ l, p a = q a) → l.any p = l.any q
  | [], _ => rfl
  | a :: l, h => by
    simp only [List.any_cons]
    rw [h a (List.mem_cons_self a l),
      any_congr_of_mem l (fun b hb => h b (List.mem_cons_of_mem a hb))]

theorem dedupByGo_eq_nil {α : Type} (r : α → α → Bool) :
    ∀ seen l : List α, (∀ a ∈ l, seen.any (fun b => r b a) = true) →
      dedupByGo r seen l = []
  | _, [], _ => rfl
  | seen, a :: l, h => by
    simp only [dedupByGo]
    rw [if_pos (h a (List.mem_cons_self a l))]
    exact dedupByGo_eq_nil r seen l (fun b hb => h b (List.mem_cons_of_mem a hb))

theorem length_dedupBy_le_one {α : Type} (r : α → α → Bool) (l : List α)
    (h : ∀ a ∈ l, ∀ b ∈ l, r a b = true) : (dedupBy r l).length ≤ 1 := by
  cases l with
  | nil => exact Nat.zero_le 1
  | cons a l =>
    have he : dedupBy r (a :: l) = a :: dedupByGo r [a] l := rfl
    rw [he, dedupByGo_eq_nil r [a] l (fun b hb => by
      simp only [List.any_cons, List.any_nil, Bool.or_false]
      exact h a (List.mem_cons_self a l) b (List.mem_cons_of_mem a hb))]
    exact Nat.le_refl 1

theorem mem_of_mem_dedupByGo {α : Type} (r : α → α → Bool) :
    ∀ (seen l : List α) (x : α), x ∈ dedupByGo r seen l → x ∈ l
  | _, [], x, h => absurd h (List.not_mem_nil x)
  | seen, a :: l, x, h => by
    simp only [dedupByGo] at h
    by_cases hc : (seen.any fun b => r b a) = true
    · rw [if_pos hc] at h
      exact List.mem_cons_of_mem a (mem_of_mem_dedupByGo r seen l x h)
    · rw [if_neg hc] at h
      rcases List.mem_cons.mp h with h1 | h1
      · exact h1 ▸ List.mem_cons_self a l
      · exact List.mem_cons_of_mem a (mem_of_mem_dedupByGo r (a :: seen) l x h1)

theorem mem_of_mem_dedupBy {α : Type} {r : α → α → Bool} {l : List α} {x : α}
    (h : x ∈ dedupBy r l) : x ∈ l :=
  mem_of_mem_dedupByGo r [] l x h

theorem eq_of_mem_dateCheck {v : List PyVal} {f : Finding} (h : f ∈ dateCheck v) :
    f = .inconsistentDates (dedupBy (· == ·) (v.filterMap toDatetimeCanon)) := by
  unfold dateCheck at h
  split at h
  · exact List.mem_singleton.mp h
  · exact absurd h (List.not_mem_nil f)

theorem eq_of_mem_boolCheck {v : List PyVal} {f : Finding} (h : f ∈ boolCheck v) :
    f = .possibleBool (dedupBy pyEq v) := by
  unfold boolCheck at h
  split at h
  · exact List.mem_singleton.mp h
  · exact absurd h (List.not_mem_nil f)

theorem eq_of_mem_missingCheck {v : List PyVal} {f : Finding} (h : f ∈ missingCheck v) :
    f = .missingPlaceholders ((dedupBy pyEq v).filter (fun x => pyMem x knownMissing)) := by
  unfold missingCheck at h
  split at h
  · exact List.mem_singleton.mp h
  · exact absurd h (List.not_mem_nil f)

theorem eq_of_mem_encodingCheck {v : List PyVal} {f : Finding} (h : f ∈ encodingCheck v) :
    f = .encodingAnomaly := by
  unfold encodingCheck at h
  split at h
  · exact List.mem_singleton.mp h
  · exact absurd h (List.not_mem_nil f)

theorem dateCheck_cases (v : List PyVal) :
    dateCheck v = [] ∨
      dateCheck v = [.inconsistentDates (dedupBy (· == ·) (v.filterMap toDatetimeCanon))] := by
  unfold dateCheck; split
  · exact Or.inr rfl
  · exact Or.inl rfl

theorem boolCheck_cases (v : List PyVal) :
    boolCheck v = [] ∨ boolCheck v = [.possibleBool (dedupBy pyEq v)] := by
  unfold boolCheck; split
  · exact Or.inr rfl
  · exact Or.inl rfl

theorem missingCheck_cases (v : List PyVal) :
    missingCheck v = [] ∨
      missingCheck v =
        [.missingPlaceholders ((dedupBy pyEq v).filter (fun x => pyMem x knownMissing))] := by
  unfold missingCheck; split
  · exact Or.inr rfl
  · exact Or.inl rfl

theorem encodingCheck_cases (v : List PyVal) :
    encodingCheck v = [] ∨ encodingCheck v = [.encodingAnomaly] := by
  unfold encodingCheck; split
  · exact Or.inr rfl
  · exact Or.inl rfl

theorem checkColumn_object {c : DFColumn} (h : c.dtype = .object) :
    checkColumn c = .ok (objectChecks (dropna c.cells)) := by
  unfold checkColumn
  rw [h]
  rfl

theorem numericChecks_ok_cases {l : List PyVal} {fs : List Finding}
    (h : numericChecks l = .ok fs) :
    fs = [] ∨ (∃ ns, fs = [Finding.mixedNumericTypes ns]) ∨
      fs = [Finding.inconsistentPrecision] := by
  unfold numericChecks at h
  split at h
  · exact Or.inr (Or.inl ⟨_, (Except.ok.inj h).symm⟩)
  · split at h
    · exact Except.noConfusion h
    · split at h
      · exact Or.inr (Or.inr (Except.ok.inj h).symm)
      · exact Or.inl (Except.ok.inj h).symm

theorem mixed_not_mem_numericChecks {l : List PyVal} {fs : List Finding}
    (hlen : (dedupBy (· == ·) (l.map typeOf)).length ≤ 1)
    (h : numericChecks l = .ok fs) {ns : List String} :
    Finding.mixedNumericTypes ns ∉ fs := by
  unfold numericChecks at h
  rw [if_neg (by omega)] at h
  split at h
  · exact Except.noConfusion h
  · split at h
    · rw [← Except.ok.inj h]
      intro hmem
      exact Finding.noConfusion (List.mem_singleton.mp hmem)
    · rw [← Except.ok.inj h]
      exact List.not_mem_nil _

theorem objectChecks_pairwise (v : List PyVal) :
    (objectChecks v).Pairwise (fun a b => catIdx a < catIdx b) := by
  unfold objectChecks
  rcases dateCheck_cases v with h1 | h1 <;> rcases boolCheck_cases v with h2 | h2 <;>
    rcases missingCheck_cases v with h3 | h3 <;> rcases encodingCheck_cases v with h4 | h4 <;>
    rw [h1, h2, h3, h4] <;>
    simp [List.pairwise_cons, catIdx]

theorem checkColumn_numeric {c : DFColumn} (hn : isNumericDtype c.dtype = true)
    (hno : (c.dtype == Dtype.object) = false) {fs : List Finding}
    (h : checkColumn c = .ok fs) :
    numericChecks (dropna c.cells) = .ok fs := by
  unfold checkColumn at h
  rw [if_pos hn] at h
  split at h
  · exact Except.noConfusion h
  next numF hnum =>
    rw [hno] at h
    simp only [Bool.false_eq_true, if_false, List.nil_append] at h
    rw [hnum, Except.ok.inj h]

theorem checkColumn_pairwise {c : DFColumn} {fs : List Finding}
    (h : checkColumn c = .ok fs) :
    fs.Pairwise (fun a b => catIdx a < catIdx b) := by
  rcases c with ⟨name, dtype, cells⟩
  cases dtype
  case object =>
    rw [checkColumn_object rfl] at h
    rw [← Except.ok.inj h]
    exact objectChecks_pairwise (dropna cells)
  case datetime64 =>
    have h2 : checkColumn ⟨name, .datetime64, cells⟩ = .ok [] := rfl
    rw [h2] at h
    rw [← Except.ok.inj h]
    exact List.Pairwise.nil
  case int64 =>
    have h2 := checkColumn_numeric (c := ⟨name, .int64, cells⟩) rfl rfl h
    rcases numericChecks_ok_cases h2 with h5 | ⟨ns, h5⟩ | h5 <;> subst h5 <;> simp
  case float64 =>
    have h2 := checkColumn_numeric (c := ⟨name, .float64, cells⟩) rfl rfl h
    rcases numericChecks_ok_cases h2 with h5 | ⟨ns, h5⟩ | h5 <;> subst h5 <;> simp
  case boolDt =>
    have h2 := checkColumn_numeric (c := ⟨name, .boolDt, cells⟩) rfl rfl h
    rcases numericChecks_ok_cases h2 with h5 | ⟨ns, h5⟩ | h5 <;> subst h5 <;> simp

theorem verifyCols_ok_spec :
    ∀ (cols : List DFColumn) (rep : List (String × List Finding)),
      verifyCols cols = .ok rep →
      rep.map Prod.fst = (cols.filter colHasFinding).map DFColumn.name ∧
      ∀ p ∈ rep, ∃ c, c ∈ cols ∧ c.name = p.1 ∧ checkColumn c = .ok p.2 ∧ p.2 ≠ []
  | [], rep, h => by
    rw [← Except.ok.inj h]
    exact ⟨rfl, by simp⟩
  | c :: cs, rep, h => by
    unfold verifyCols at h
    cases hc : checkColumn c with
    | error e => rw [hc] at h; exact Except.noConfusion h
    | ok fs =>
      rw [hc] at h
      cases hrest : verifyCols cs with
      | error e => rw [hrest] at h; exact Except.noConfusion h
      | ok rest =>
        rw [hrest] at h
        obtain ⟨ih1, ih2⟩ := verifyCols_ok_spec cs rest hrest
        have hcol : colHasFinding c = !fs.isEmpty := by
          unfold colHasFinding
          rw [hc]
        rw [← Except.ok.inj h]
        by_cases hfs : fs.isEmpty
        · rw [if_pos hfs]
          constructor
          · rw [ih1, List.filter_cons, if_neg (by rw [hcol, hfs]; simp)]
          · intro p hp
            obtain ⟨c2, hmem, h1, h2, h3⟩ := ih2 p hp
            exact ⟨c2, List.mem_cons_of_mem c hmem, h1, h2, h3⟩
        · rw [if_neg hfs]
          constructor
          · rw [List.map_cons, ih1, List.filter_cons,
              if_pos (by rw [hcol, Bool.eq_false_iff.mpr hfs]; simp)]
            rfl
          · intro p hp
            rcases List.mem_cons.mp hp with h1 | h1
            · subst h1
              exact ⟨c, List.mem_cons_self c cs, rfl, hc, by
                intro hnil
                apply hfs
                rw [show fs = [] from hnil]
                rfl⟩
            · obtain ⟨c2, hmem, h2, h3, h4⟩ := ih2 p h1
              exact ⟨c2, List.mem_cons_of_mem c hmem, h2, h3, h4⟩

theorem checkColumn_nil_cells {c : DFColumn} (h : c.cells = []) :
    checkColumn c = .ok [] := by
  rcases c with ⟨name, dtype, cells⟩
  simp only at h
  subst h
  cases dtype <;> rfl

theorem checkColumn_other_dtype {c : DFColumn} (h1 : c.dtype ≠ .object)
    (h2 : isNumericDtype c.dtype = false) : checkColumn c = .ok [] := by
  unfold checkColumn
  rw [if_neg (by rw [h2]; exact Bool.false_ne_true),
    if_neg (by rw [beq_eq_false_iff_ne.mpr h1]; exact Bool.false_ne_true)]

theorem verifyCols_all_nil :
    ∀ cols : List DFColumn, (∀ c ∈ cols, checkColumn c = .ok []) →
      verifyCols cols = .ok []
  | [], _ => rfl
  | c :: cs, h => by
    unfold verifyCols
    rw [h c (List.mem_cons_self c cs),
      verifyCols_all_nil cs (fun c2 hc2 => h c2 (List.mem_cons_of_mem c hc2))]
    rfl

theorem typeOf_const_of_WF_numeric {c : DFColumn} (hwf : WFcol c = true)
    (hnum : isNumericDtype c.dtype = true) :
    (dedupBy (· == ·) ((dropna c.cells).map typeOf)).length ≤ 1 := by
  have hval : ∀ v ∈ dropna c.cells, some v ∈ c.cells := by
    intro v hv
    obtain ⟨o, ho, heq⟩ := List.mem_filterMap.mp hv
    exact heq ▸ ho
  have hok : ∀ v ∈ dropna c.cells, cellOk c.dtype (some v) = true := by
    intro v hv
    exact List.all_eq_true.mp hwf (some v) (hval v hv)
  apply length_dedupBy_le_one
  intro a ha b hb
  obtain ⟨va, hva, rfl⟩ := List.mem_map.mp ha
  obtain ⟨vb, hvb, rfl⟩ := List.mem_map.mp hb
  have hoa := hok va hva
  have hob := hok vb hvb
  rcases c with ⟨name, dtype, cells⟩
  cases dtype
  case object => exact absurd hnum (by simp [isNumericDtype])
  case datetime64 => exact absurd hnum (by simp [isNumericDtype])
  case int64 =>
    clear hwf hval hok ha hb hva hvb
    cases va <;> cases vb <;>
      first
        | rfl
        | simp [cellOk] at hoa hob
  case float64 =>
    clear hwf hval hok ha hb hva hvb
    cases va <;> cases vb <;>
      first
        | rfl
        | simp [cellOk] at hoa hob
  case boolDt =>
    clear hwf hval hok ha hb hva hvb
    cases va <;> cases vb <;>
      first
        | rfl
        | simp [cellOk] at hoa hob

theorem guard_of_mem_dateCheck {v : List PyVal} {f : Finding} (h : f ∈ dateCheck v) :
    1 < (dedupBy (· == ·) (v.filterMap toDatetimeCanon)).length := by
  unfold dateCheck at h
  split at h
  next hg => exact hg
  next => exact absurd h (List.not_mem_nil f)

theorem mem_dateCheck_of_guard {v : List PyVal}
    (h : 1 < (dedupBy (· == ·) (v.filterMap toDatetimeCanon)).length) :
    Finding.inconsistentDates (dedupBy (· == ·) (v.filterMap toDatetimeCanon)) ∈
      dateCheck v := by
  unfold dateCheck
  rw [if_pos h]
  exact List.mem_singleton.mpr rfl

theorem guard_of_mem_missingCheck {v : List PyVal} {f : Finding} (h : f ∈ missingCheck v) :
    0 < ((dedupBy pyEq v).filter (fun x => pyMem x knownMissing)).length := by
  unfold missingCheck at h
  split at h
  next hg => exact hg
  next => exact absurd h (List.not_mem_nil f)

theorem mem_missingCheck_of_guard {v : List PyVal}
    (h : 0 < ((dedupBy pyEq v).filter (fun x => pyMem x knownMissing)).length) :
    Finding.missingPlaceholders ((dedupBy pyEq v).filter (fun x => pyMem x knownMissing)) ∈
      missingCheck v := by
  unfold missingCheck
  rw [if_pos h]
  exact List.mem_singleton.mpr rfl

theorem filter_isPossibleBool_dateCheck (v : List PyVal) :
    (dateCheck v).filter Finding.isPossibleBool = [] := by
  rcases dateCheck_cases v with h | h <;> rw [h] <;> rfl

theorem filter_isPossibleBool_boolCheck (v : List PyVal) :
    (boolCheck v).filter Finding.isPossibleBool = boolCheck v := by
  rcases boolCheck_cases v with h | h <;> rw [h] <;> rfl

theorem filter_isPossibleBool_missingCheck (v : List PyVal) :
    (missingCheck v).filter Finding.isPossibleBool = [] := by
  rcases missingCheck_cases v with h | h <;> rw [h] <;> rfl

theorem filter_isPossibleBool_encodingCheck (v : List PyVal) :
    (encodingCheck v).filter Finding.isPossibleBool = [] := by
  rcases encodingCheck_cases v with h | h <;> rw [h] <;> rfl

theorem count_encodingAnomaly_dateCheck (v : List PyVal) :
    (dateCheck v).count Finding.encodingAnomaly = 0 := by
  rcases dateCheck_cases v with h | h <;> rw [h] <;> rfl

theorem count_encodingAnomaly_boolCheck (v : List PyVal) :
    (boolCheck v).count Finding.encodingAnomaly = 0 := by
  rcases boolCheck_cases v with h | h <;> rw [h] <;> rfl

theorem count_encodingAnomaly_missingCheck (v : List PyVal) :
    (missingCheck v).count Finding.encodingAnomaly = 0 := by
  rcases missingCheck_cases v with h | h <;> rw [h] <;> rfl

theorem length_le_maxFindingsWidth :
    ∀ (rows : List (String × List Finding)) (p : String × List Finding), p ∈ rows →
      p.2.length ≤ maxFindingsWidth rows
  | [], p, hp => absurd hp (List.not_mem_nil p)
  | r :: rs, p, hp => by
    rcases List.mem_cons.mp hp with h | h
    · subst h
      exact Nat.le_max_left p.2.length (maxFindingsWidth rs)
    · exact Nat.le_trans (length_le_maxFindingsWidth rs p h)
        (Nat.le_max_right r.2.length (maxFindingsWidth rs))

theorem verifyConsistency_of_error {df : DataFrame} {e : PyError}
    (hv : verifyCols df.cols = .error e) : verifyConsistency df = .error e := by
  unfold verifyConsistency
  rw [hv]

theorem verifyConsistency_of_ok {df : DataFrame} {rows : List (String × List Finding)}
    (hv : verifyCols df.cols = .ok rows) :
    verifyConsistency df =
      if rows.isEmpty then .ok []
      else if maxFindingsWidth rows == 1 then .ok rows
      else .error .valueError := by
  unfold verifyConsistency
  rw [hv]

/-! ## Concrete inputs used by the claims -/

/-- The Python float `2.5`. -/
def q5over2 : ℚ := ⟨5, 2, by decide, by decide⟩

/-- The Python float `3.5`. -/
def q7over2 : ℚ := ⟨7, 2, by decide, by decide⟩

/-- The numeric values `[1, 2.5, 3]` stored the way pandas stores a numeric
column: dtype `float64`, every value a float (`[1.0, 2.5, 3.0]`). -/
def dfC2float : DataFrame :=
  ⟨[⟨"a", .float64,
    [some (.float (qInt 1)), some (.float q5over2), some (.float (qInt 3))]⟩]⟩

/-- The values `[1, 2.5, 3]` kept with mixed runtime types, which pandas can
only do in an `object` column. -/
def dfC2obj : DataFrame :=
  ⟨[⟨"a", .object, [some (.int 1), some (.float q5over2), some (.int 3)]⟩]⟩

/-- A one-column DataFrame whose object column has two findings (a
missing-value placeholder and a non-ASCII value). -/
def dfC8 : DataFrame :=
  ⟨[⟨"w", .object, [some (.str "NA"), some (.str "résumé")]⟩]⟩

/-! ## Claims -/

/-- C1: the claim says only the input-type check can abort `verifyConsistency`
and every per-cell anomaly is recovered locally.  The code violates this:
on any integer-dtype column the numeric-precision check applies the unbound
`float.is_integer` to `int` values, raising an uncaught `TypeError` that
aborts the whole call before any report is produced.  (The textual checks do
recover per value: a column mixing a date with an unparseable string checks
cleanly.)  This theorem exhibits both halves. -/
theorem C1_propagation_code_bug :
    verifyConsistency ⟨[⟨"a", .int64, [some (.int 1), some (.int 2)]⟩]⟩ =
      .error .typeError ∧
    verifyConsistency ⟨[⟨"s", .object,
        [some (.str "2023-01-05"), some (.str "notadate")]⟩]⟩ = .ok [] :=
  ⟨by decide, by decide⟩

/-- C2 counterexample: the claim predicts that the numeric column holding
`[1, 2.5, 3]` yields the mixed-numeric-types finding and no precision
finding.  In pandas these values are stored as a `float64` column
`[1.0, 2.5, 3.0]`, for which `verifyConsistency` emits exactly the
precision finding and no mixed-types finding. -/
theorem C2_mixed_types_counterexample :
    verifyConsistency dfC2float = .ok [("a", [Finding.inconsistentPrecision])] := by
  decide

/-- C2 amended: in a well-formed table a numeric-dtype column carries a
single runtime representation, so the mixed-numeric-types finding is never
emitted for it; and when `[1, 2.5, 3]` keeps mixed runtime types the column
is an `object` column, which receives no numeric check at all (it is flagged
by the boolean-representation heuristic instead, as `1` is in that
vocabulary). -/
theorem C2_mixed_types_amended :
    (∀ c : DFColumn, WFcol c = true → isNumericDtype c.dtype = true →
        ∀ fs, checkColumn c = .ok fs → ∀ ns, Finding.mixedNumericTypes ns ∉ fs) ∧
    verifyConsistency dfC2obj =
      .ok [("a", [Finding.possibleBool [.int 1, .float q5over2, .int 3]])] := by
  constructor
  · intro c hwf hnum fs hok ns
    have hlen := typeOf_const_of_WF_numeric hwf hnum
    have hno : (c.dtype == Dtype.object) = false := by
      rcases c with ⟨name, dtype, cells⟩
      cases dtype
      case object => simp [isNumericDtype] at hnum
      all_goals rfl
    exact mixed_not_mem_numericChecks hlen (checkColumn_numeric hnum hno hok)
  · decide

/-- Witness for C2: the amended theorem applied to the `float64` storage of
`[1, 2.5, 3]`, whose checks return exactly the precision finding. -/
theorem C2_mixed_types_amended_witness :
    Finding.mixedNumericTypes ["int", "float"] ∉ [Finding.inconsistentPrecision] :=
  C2_mixed_types_amended.1 ⟨"a", .float64,
      [some (.float (qInt 1)), some (.float q5over2), some (.float (qInt 3))]⟩
    (by decide) (by decide) [Finding.inconsistentPrecision] (by decide) ["int", "float"]

/-- C5: the claim says that on every numeric column with a single runtime
representation the precision finding appears exactly when integral and
non-integral values are mixed.  That is what happens on uniformly-float
columns (`[1.0, 2.0, 3.5]` is flagged, `[1.0, 2.0, 3.0]` is not), but on an
integer-dtype column — a single runtime representation, all values integral,
so the claim requires no finding — the code instead raises `TypeError` from
`float.is_integer` and aborts, so the claim describes the intended behaviour
and the code is broken on the integer case. -/
theorem C5_precision_code_bug :
    verifyConsistency ⟨[⟨"n", .int64, [some (.int 7)]⟩]⟩ = .error .typeError ∧
    verifyConsistency ⟨[⟨"n", .float64,
        [some (.float (qInt 1)), some (.float (qInt 2)), some (.float q7over2)]⟩]⟩ =
      .ok [("n", [Finding.inconsistentPrecision])] ∧
    verifyConsistency ⟨[⟨"n", .float64,
        [some (.float (qInt 1)), some (.float (qInt 2)), some (.float (qInt 3))]⟩]⟩ =
      .ok [] :=
  ⟨by decide, by decide, by decide⟩

/-- C3: for every textual (object-dtype) column whose distinct non-missing
values intersect the boolean vocabulary, `verifyConsistency` emits exactly
one boolean-representation finding, and it lists the column's full
distinct-value set, not just the intersecting subset; in particular
`{"Yes", "No", "Maybe"}` is reported with all three values. -/
theorem C3_boolean_repr :
    (∀ c : DFColumn, c.dtype = .object → ∀ fs, checkColumn c = .ok fs →
        (dedupBy pyEq (dropna c.cells)).any (fun v => pyMem v booleanAliases) = true →
        fs.filter Finding.isPossibleBool =
          [Finding.possibleBool (dedupBy pyEq (dropna c.cells))]) ∧
    verifyConsistency ⟨[⟨"c", .object,
        [some (.str "Yes"), some (.str "No"), some (.str "Maybe")]⟩]⟩ =
      .ok [("c", [Finding.possibleBool [.str "Yes", .str "No", .str "Maybe"]])] := by
  constructor
  · intro c hdt fs hok hany
    rw [checkColumn_object hdt] at hok
    rw [← Except.ok.inj hok]
    unfold objectChecks
    rw [List.filter_append, List.filter_append, List.filter_append,
      filter_isPossibleBool_dateCheck, filter_isPossibleBool_boolCheck,
      filter_isPossibleBool_missingCheck, filter_isPossibleBool_encodingCheck,
      List.nil_append, List.append_nil, List.append_nil]
    unfold boolCheck
    rw [if_pos hany]
  · decide

/-- Witness for C3: the theorem applied to the `{"Yes", "No", "Maybe"}`
column with its actual finding list. -/
theorem C3_boolean_repr_witness :
    ([Finding.possibleBool [PyVal.str "Yes", PyVal.str "No", PyVal.str "Maybe"]]).filter
        Finding.isPossibleBool =
      [Finding.possibleBool [PyVal.str "Yes", PyVal.str "No", PyVal.str "Maybe"]] :=
  C3_boolean_repr.1 ⟨"c", .object,
      [some (.str "Yes"), some (.str "No"), some (.str "Maybe")]⟩
    rfl [Finding.possibleBool [PyVal.str "Yes", PyVal.str "No", PyVal.str "Maybe"]]
    (by decide) (by decide)

/-- C4: for every textual column, a date-format finding is emitted exactly
when the set of canonical `YYYY-MM-DD` forms of the cells that parse as
dates has more than one element, the finding lists that set, and unparseable
cells are ignored.  Concretely, `["2023-01-05", "01/05/2023"]` (one calendar
date) yields no date finding while `["2023-01-05", "2023-02-05"]` yields one
listing both canonical forms. -/
theorem C4_date_format :
    (∀ c : DFColumn, c.dtype = .object → ∀ fs, checkColumn c = .ok fs →
        ((∃ ds, Finding.inconsistentDates ds ∈ fs) ↔
          1 < (dedupBy (· == ·) ((dropna c.cells).filterMap toDatetimeCanon)).length) ∧
        ∀ ds, Finding.inconsistentDates ds ∈ fs →
          ds = dedupBy (· == ·) ((dropna c.cells).filterMap toDatetimeCanon)) ∧
    verifyConsistency ⟨[⟨"d", .object,
        [some (.str "2023-01-05"), some (.str "01/05/2023")]⟩]⟩ = .ok [] ∧
    verifyConsistency ⟨[⟨"d", .object,
        [some (.str "2023-01-05"), some (.str "2023-02-05")]⟩]⟩ =
      .ok [("d", [Finding.inconsistentDates ["2023-01-05", "2023-02-05"]])] := by
  refine ⟨?_, by decide, by decide⟩
  intro c hdt fs hok
  rw [checkColumn_object hdt] at hok
  rw [← Except.ok.inj hok]
  constructor
  · constructor
    · rintro ⟨ds, hds⟩
      simp only [objectChecks, List.mem_append] at hds
      rcases hds with ((h | h) | h) | h
      · exact guard_of_mem_dateCheck h
      · exact Finding.noConfusion (eq_of_mem_boolCheck h)
      · exact Finding.noConfusion (eq_of_mem_missingCheck h)
      · exact Finding.noConfusion (eq_of_mem_encodingCheck h)
    · intro hlt
      refine ⟨dedupBy (· == ·) ((dropna c.cells).filterMap toDatetimeCanon), ?_⟩
      simp only [objectChecks, List.mem_append]
      exact Or.inl (Or.inl (Or.inl (mem_dateCheck_of_guard hlt)))
  · intro ds h
    simp only [objectChecks, List.mem_append] at h
    rcases h with ((h | h) | h) | h
    · exact Finding.inconsistentDates.inj (eq_of_mem_dateCheck h)
    · exact Finding.noConfusion (eq_of_mem_boolCheck h)
    · exact Finding.noConfusion (eq_of_mem_missingCheck h)
    · exact Finding.noConfusion (eq_of_mem_encodingCheck h)

/-- Witness for C4: the payload clause applied to the
`["2023-01-05", "2023-02-05"]` column. -/
theorem C4_date_format_witness :
    ["2023-01-05", "2023-02-05"] =
      dedupBy (· == ·)
        ((dropna [some (PyVal.str "2023-01-05"), some (PyVal.str "2023-02-05")]).filterMap
          toDatetimeCanon) :=
  (C4_date_format.1 ⟨"d", .object,
      [some (.str "2023-01-05"), some (.str "2023-02-05")]⟩
    rfl [Finding.inconsistentDates ["2023-01-05", "2023-02-05"]] (by decide)).2
    ["2023-01-05", "2023-02-05"] (by decide)

/-- C6: for every textual column, a missing-placeholder finding is emitted
exactly when the distinct values intersect the case-sensitive placeholder
vocabulary, and it lists exactly the intersecting subset; concretely
`["NA", "active", "inactive"]` yields the finding `{"NA"}`. -/
theorem C6_missing_placeholder :
    (∀ c : DFColumn, c.dtype = .object → ∀ fs, checkColumn c = .ok fs →
        ((∃ vs, Finding.missingPlaceholders vs ∈ fs) ↔
          (dedupBy pyEq (dropna c.cells)).filter (fun x => pyMem x knownMissing) ≠ []) ∧
        ∀ vs, Finding.missingPlaceholders vs ∈ fs →
          vs = (dedupBy pyEq (dropna c.cells)).filter (fun x => pyMem x knownMissing)) ∧
    verifyConsistency ⟨[⟨"m", .object,
        [some (.str "NA"), some (.str "active"), some (.str "inactive")]⟩]⟩ =
      .ok [("m", [Finding.missingPlaceholders [.str "NA"]])] := by
  refine ⟨?_, by decide⟩
  intro c hdt fs hok
  rw [checkColumn_object hdt] at hok
  rw [← Except.ok.inj hok]
  constructor
  · constructor
    · rintro ⟨vs, hvs⟩
      simp only [objectChecks, List.mem_append] at hvs
      rcases hvs with ((h | h) | h) | h
      · exact Finding.noConfusion (eq_of_mem_dateCheck h)
      · exact Finding.noConfusion (eq_of_mem_boolCheck h)
      · exact List.length_pos.mp (guard_of_mem_missingCheck h)
      · exact Finding.noConfusion (eq_of_mem_encodingCheck h)
    · intro hne
      refine ⟨(dedupBy pyEq (dropna c.cells)).filter (fun x => pyMem x knownMissing), ?_⟩
      simp only [objectChecks, List.mem_append]
      exact Or.inl (Or.inr (mem_missingCheck_of_guard (List.length_pos.mpr hne)))
  · intro vs h
    simp only [objectChecks, List.mem_append] at h
    rcases h with ((h | h) | h) | h
    · exact Finding.noConfusion (eq_of_mem_dateCheck h)
    · exact Finding.noConfusion (eq_of_mem_boolCheck h)
    · exact Finding.missingPlaceholders.inj (eq_of_mem_missingCheck h)
    · exact Finding.noConfusion (eq_of_mem_encodingCheck h)

/-- Witness for C6: the payload clause applied to the
`["NA", "active", "inactive"]` column. -/
theorem C6_missing_placeholder_witness :
    [PyVal.str "NA"] =
      (dedupBy pyEq
          (dropna [some (PyVal.str "NA"), some (PyVal.str "active"),
            some (PyVal.str "inactive")])).filter (fun x => pyMem x knownMissing) :=
  (C6_missing_placeholder.1 ⟨"m", .object,
      [some (.str "NA"), some (.str "active"), some (.str "inactive")]⟩
    rfl [Finding.missingPlaceholders [PyVal.str "NA"]] (by decide)).2
    [PyVal.str "NA"] (by decide)

/-- C7: for every textual column, exactly one encoding-anomaly finding,
carrying no value list, is emitted precisely when some non-missing value
coerced to text contains a character outside 7-bit ASCII; `"café"` is
flagged, `"cafe"` is not. -/
theorem C7_encoding :
    (∀ c : DFColumn, c.dtype = .object → ∀ fs, checkColumn c = .ok fs →
        fs.count Finding.encodingAnomaly =
          if (dropna c.cells).any (fun v => hasNonAscii (pyStr v)) then 1 else 0) ∧
    verifyConsistency ⟨[⟨"e", .object, [some (.str "café")]⟩]⟩ =
      .ok [("e", [Finding.encodingAnomaly])] ∧
    verifyConsistency ⟨[⟨"e", .object, [some (.str "cafe")]⟩]⟩ = .ok [] := by
  refine ⟨?_, by decide, by decide⟩
  intro c hdt fs hok
  rw [checkColumn_object hdt] at hok
  rw [← Except.ok.inj hok]
  unfold objectChecks
  simp only [List.count_append, count_encodingAnomaly_dateCheck,
    count_encodingAnomaly_boolCheck, count_encodingAnomaly_missingCheck, Nat.zero_add]
  unfold encodingCheck
  split
  next => rfl
  next => rfl

/-- Witness for C7: the theorem applied to the `"café"` column. -/
theorem C7_encoding_witness :
    ([Finding.encodingAnomaly]).count Finding.encodingAnomaly =
      if (dropna [some (PyVal.str "café")]).any (fun v => hasNonAscii (pyStr v)) then 1
      else 0 :=
  C7_encoding.1 ⟨"e", .object, [some (.str "café")]⟩ rfl [Finding.encodingAnomaly]
    (by decide)

/-- C8: the claim describes the mapping the detection loop accumulates, and
that mapping does satisfy it (first conjunct): the recorded rows are
exactly the columns with at least one finding, in the table's original
column order, each finding list strictly sorted by heuristic category —
hence in evaluation order with at most one finding per category.  But the
final report compilation is broken: `pd.DataFrame.from_dict` with
`orient="index"` spreads a finding list across one DataFrame column per
finding, so the two-element header assignment raises `ValueError` whenever
some recorded column has two or more findings.  On exactly the tables
where the claimed ordering is non-trivial the call therefore aborts with
no report — the second and third conjuncts trace the failing input, whose
column accumulates the two findings the claim says the report would list
— and any report that is returned carries exactly one finding per row
(fourth conjunct). -/
theorem C8_report_structure :
    (∀ (cols : List DFColumn) (rows : List (String × List Finding)),
        verifyCols cols = .ok rows →
        rows.map Prod.fst = (cols.filter colHasFinding).map DFColumn.name ∧
        (∀ p ∈ rows, ∃ c, c ∈ cols ∧ c.name = p.1 ∧ checkColumn c = .ok p.2 ∧ p.2 ≠ []) ∧
        ∀ p ∈ rows, p.2.Pairwise (fun a b => catIdx a < catIdx b)) ∧
    verifyCols dfC8.cols =
      .ok [("w", [Finding.missingPlaceholders [PyVal.str "NA"],
        Finding.encodingAnomaly])] ∧
    verifyConsistency dfC8 = .error .valueError ∧
    ∀ (df : DataFrame) (rep : List (String × List Finding)),
      verifyConsistency df = .ok rep → ∀ p ∈ rep, p.2.length = 1 := by
  refine ⟨?_, by decide, by decide, ?_⟩
  · intro cols rows h
    obtain ⟨h1, h2⟩ := verifyCols_ok_spec cols rows h
    refine ⟨h1, h2, ?_⟩
    intro p hp
    obtain ⟨c, _, _, hc, _⟩ := h2 p hp
    exact checkColumn_pairwise hc
  · intro df rep h p hp
    cases hv : verifyCols df.cols with
    | error e =>
      rw [verifyConsistency_of_error hv] at h
      exact Except.noConfusion h
    | ok rows =>
      rw [verifyConsistency_of_ok hv] at h
      by_cases he : rows.isEmpty
      · rw [if_pos he] at h
        rw [← Except.ok.inj h] at hp
        exact absurd hp (List.not_mem_nil p)
      · rw [if_neg he] at h
        by_cases hw : (maxFindingsWidth rows == 1) = true
        · rw [if_pos hw] at h
          rw [← Except.ok.inj h] at hp
          have hw2 : maxFindingsWidth rows = 1 := by simpa using hw
          have hle : p.2.length ≤ 1 := by
            rw [← hw2]
            exact length_le_maxFindingsWidth rows p hp
          obtain ⟨c, _, _, _, hne⟩ := (verifyCols_ok_spec df.cols rows hv).2 p hp
          have hpos : 0 < p.2.length := List.length_pos.mpr hne
          omega
        · rw [if_neg hw] at h
          exact Except.noConfusion h

/-- Witness for C8: the loop-invariant clause at the concrete DataFrame
whose single column accumulates two findings (the input on which the
report compilation then aborts). -/
theorem C8_report_structure_witness :
    ([("w", [Finding.missingPlaceholders [PyVal.str "NA"],
        Finding.encodingAnomaly])]).map Prod.fst =
      (dfC8.cols.filter colHasFinding).map DFColumn.name :=
  (C8_report_structure.1 dfC8.cols
    [("w", [Finding.missingPlaceholders [PyVal.str "NA"], Finding.encodingAnomaly])]
    (by decide)).1

/-- C9: a table with zero rows, and a table none of whose columns is textual
or numeric, both produce the empty report rather than an error, while
`checkCompletedness` rejects any empty table with `ValueError`. -/
theorem C9_empty_inputs :
    (∀ df : DataFrame, (∀ c ∈ df.cols, c.cells = []) → verifyConsistency df = .ok []) ∧
    (∀ df : DataFrame,
        (∀ c ∈ df.cols, c.dtype ≠ .object ∧ isNumericDtype c.dtype = false) →
        verifyConsistency df = .ok []) ∧
    ∀ df : DataFrame, df.emptyDF = true → checkCompletedness df = .error .valueError := by
  refine ⟨?_, ?_, ?_⟩
  · intro df h
    rw [verifyConsistency_of_ok
      (verifyCols_all_nil df.cols (fun c hc => checkColumn_nil_cells (h c hc)))]
    rfl
  · intro df h
    rw [verifyConsistency_of_ok
      (verifyCols_all_nil df.cols
        (fun c hc => checkColumn_other_dtype (h c hc).1 (h c hc).2))]
    rfl
  · intro df h
    unfold checkCompletedness
    rw [if_pos h]

/-- Witness for C9: a zero-row integer column (which would crash the numeric
check if it had values) checks cleanly, a datetime column is skipped, and
the same zero-row table is rejected by `checkCompletedness`. -/
theorem C9_empty_inputs_witness :
    verifyConsistency ⟨[⟨"z", .int64, []⟩]⟩ = .ok [] ∧
    verifyConsistency ⟨[⟨"t", .datetime64, [some (.timestamp 0)]⟩]⟩ = .ok [] ∧
    checkCompletedness ⟨[⟨"z", .int64, []⟩]⟩ = .error .valueError :=
  ⟨C9_empty_inputs.1 ⟨[⟨"z", .int64, []⟩]⟩ (by decide),
    C9_empty_inputs.2.1 ⟨[⟨"t", .datetime64, [some (.timestamp 0)]⟩]⟩ (by decide),
    C9_empty_inputs.2.2 ⟨[⟨"z", .int64, []⟩]⟩ (by decide)⟩

/-- C10: in a textual column whose cells are all strings, the numeric tokens
`0, 1, 0.0, 1.0` of the boolean vocabulary can never match (Python `==`
never equates a string with a number), so the vocabulary test degenerates to
its string part; the string column `{"0", "1"}` gets no boolean finding,
while an object column holding the actual number `0` does. -/
theorem C10_numeric_tokens :
    (∀ s : String, pyMem (.str s) numericBooleanAliases = false) ∧
    (∀ values : List PyVal, (∀ v ∈ values, ∃ s, v = PyVal.str s) →
        (dedupBy pyEq values).any (fun v => pyMem v booleanAliases) =
          (dedupBy pyEq values).any (fun v => pyMem v stringBooleanAliases)) ∧
    verifyConsistency ⟨[⟨"b", .object, [some (.str "0"), some (.str "1")]⟩]⟩ =
      .ok [] ∧
    verifyConsistency ⟨[⟨"b", .object, [some (.int 0)]⟩]⟩ =
      .ok [("b", [Finding.possibleBool [.int 0]])] := by
  refine ⟨fun s => rfl, ?_, by decide, by decide⟩
  intro values hstr
  apply any_congr_of_mem
  intro v hv
  obtain ⟨s, rfl⟩ := hstr v (mem_of_mem_dedupBy hv)
  show pyMem (.str s) booleanAliases = pyMem (.str s) stringBooleanAliases
  unfold booleanAliases pyMem
  rw [List.any_append]
  rw [show numericBooleanAliases.any (pyEq (.str s)) = false from rfl]
  exact Bool.or_false _

/-- Witness for C10: the vocabulary-degeneration clause at the concrete
string column `{"0", "1"}`, plus the numeric-token clause at `"0"`. -/
theorem C10_numeric_tokens_witness :
    pyMem (PyVal.str "0") numericBooleanAliases = false ∧
    (dedupBy pyEq [PyVal.str "0", PyVal.str "1"]).any
        (fun v => pyMem v booleanAliases) =
      (dedupBy pyEq [PyVal.str "0", PyVal.str "1"]).any
        (fun v => pyMem v stringBooleanAliases) :=
  ⟨C10_numeric_tokens.1 "0",
    C10_numeric_tokens.2.1 [PyVal.str "0", PyVal.str "1"] (by
      intro v hv
      rcases List.mem_cons.mp hv with h | h
      · exact ⟨"0", h⟩
      · rcases List.mem_cons.mp h with h2 | h2
        · exact ⟨"1", h2⟩
        · exact absurd h2 (List.not_mem_nil v))⟩

end DFQA
